import Mathlib

/-!
Verification development for the `tofudfy/ink` repository snapshot.

The repository consists of two artifacts:

* `src/ink_lang_ir/ir/attrs/sidebar-items.js` — a generated documentation
  sidebar index: a single call `initSidebarItems({...})` applied to a static
  object literal mapping the category names `enum`, `fn`, `struct`, `trait`
  to lists of (identifier, one-line description) pairs.
* an ERC20 deployment tutorial in markdown, with image references, a node
  invocation command line, and a narrated token-transfer scenario.

Both artifacts are embedded below exactly as they appear in the source, and
the claims about them are settled as theorems.
-/

namespace Ink

/-- The sidebar index data of `src/ink_lang_ir/ir/attrs/sidebar-items.js`:
the object literal passed to `initSidebarItems`, as an association list from
category name to the list of (identifier, description) pairs, in source
order. -/
def sidebarItems : List (String × List (String × String)) := [
  ("enum", [
    ("Attribute", "Either an ink! specific attribute, or another uninterpreted attribute."),
    ("AttributeArgKind", "An ink! specific attribute flag.")
  ]),
  ("fn", [
    ("contains_ink_attributes", "Returns `true` if the given iterator yields at least one attribute of the form `#[ink(..)]` or `#[ink]`."),
    ("err_non_hex", "Returns an error to notify about non-hex digits at a position."),
    ("first_ink_attribute", "Returns the first valid ink! attribute, if any."),
    ("invalid_selector_err_regex", "Returns an error to notify about an invalid ink! selector."),
    ("partition_attributes", "Partitions the given attributes into ink! specific and non-ink! specific attributes."),
    ("sanitize_attributes", "Sanitizes the given attributes.")
  ]),
  ("struct", [
    ("AttributeArg", "An ink! specific attribute argument."),
    ("InkAttribute", "An ink! specific attribute."),
    ("Namespace", "An ink! namespace applicable to a trait implementation block.")
  ]),
  ("trait", [
    ("Attrs", "Types implementing this trait can return a slice over their `syn` attributes.")
  ])
]

/-- The top-level keys of the sidebar object, in source order. -/
def sidebarKeys : List String := sidebarItems.map Prod.fst

/-- C1: the sidebar index is a valid object whose top-level keys are exactly
the four category names `enum`, `fn`, `struct`, `trait`: the keys are
pairwise distinct (so each occurs exactly once) and a string is a key of the
object exactly when it is one of the four category names. -/
theorem sidebar_keys_exactly_four_categories :
    sidebarKeys.Nodup ∧
      ∀ k : String, k ∈ sidebarKeys ↔ k ∈ ["enum", "fn", "struct", "trait"] :=
  ⟨by decide, fun _ => Iff.rfl⟩

/-- C2: every category of the sidebar object maps to a list of pairs of two
strings (enforced by the type of `sidebarItems`), and in every pair the
description is a single line: it contains no newline character. -/
theorem sidebar_descriptions_single_line :
    ∀ c ∈ sidebarItems, ∀ p ∈ c.2, '\n' ∉ p.2.toList := by decide

/-- `sidebar_descriptions_single_line` applied at the `enum` category and its
pair for `AttributeArgKind`. -/
theorem sidebar_descriptions_single_line_witness :
    '\n' ∉ ("An ink! specific attribute flag.").toList :=
  sidebar_descriptions_single_line
    ("enum", [
      ("Attribute", "Either an ink! specific attribute, or another uninterpreted attribute."),
      ("AttributeArgKind", "An ink! specific attribute flag.")])
    (by decide)
    ("AttributeArgKind", "An ink! specific attribute flag.")
    (by decide)

/-- Strict lexicographic order on character lists: the empty list precedes
any non-empty list, and otherwise the first differing character decides. -/
def charListLt : List Char → List Char → Bool
  | [], [] => false
  | [], _ :: _ => true
  | _ :: _, [] => false
  | c :: cs, d :: ds => decide (c < d) || (c == d && charListLt cs ds)

/-- Strict lexicographic order on strings, via their character lists. -/
def strLtb (a b : String) : Bool := charListLt a.toList b.toList

/-- C6: within every category, the identifier sequence is strictly
ascending in the lexicographic order on strings; strict sortedness also
gives that no identifier is duplicated within a category. -/
theorem sidebar_identifiers_strictly_sorted :
    ∀ c ∈ sidebarItems,
      (c.2.map Prod.fst).Pairwise (fun a b => strLtb a b = true) ∧
        (c.2.map Prod.fst).Nodup := by decide

/-- `sidebar_identifiers_strictly_sorted` applied at the `struct`
category. -/
theorem sidebar_identifiers_strictly_sorted_witness :
    (["AttributeArg", "InkAttribute", "Namespace"] : List String).Pairwise
        (fun a b => strLtb a b = true) ∧
      (["AttributeArg", "InkAttribute", "Namespace"] : List String).Nodup :=
  sidebar_identifiers_strictly_sorted
    ("struct", [
      ("AttributeArg", "An ink! specific attribute argument."),
      ("InkAttribute", "An ink! specific attribute."),
      ("Namespace", "An ink! namespace applicable to a trait implementation block.")])
    (by decide)

/-- A character allowed in a documented-item identifier: an ASCII letter, an
ASCII digit, or an underscore. -/
def identChar (c : Char) : Bool :=
  c.isAlphanum || c == '_'

/-- Whether a string is a well-formed identifier: non-empty, made only of
ASCII letters, digits and underscores, and not starting with a digit. -/
def identOk (s : String) : Bool :=
  match s.toList with
  | [] => false
  | c :: cs => (c.isAlpha || c == '_') && cs.all identChar

/-- Whether a string is a well-formed description: non-empty and ending
with a period. -/
def descOk (s : String) : Bool :=
  match s.toList.getLast? with
  | some c => c == '.'
  | none => false

/-- C7: every pair of the sidebar object has a well-formed identifier
(non-empty, only ASCII letters, digits and underscores, not starting with a
digit) and a well-formed description (non-empty, ending with a period). -/
theorem sidebar_pairs_well_formed :
    ∀ c ∈ sidebarItems, ∀ p ∈ c.2, identOk p.1 = true ∧ descOk p.2 = true := by
  decide

/-- `sidebar_pairs_well_formed` applied at the `trait` category and its
single pair. -/
theorem sidebar_pairs_well_formed_witness :
    identOk "Attrs" = true ∧
      descOk "Types implementing this trait can return a slice over their `syn` attributes." = true :=
  sidebar_pairs_well_formed
    ("trait", [
      ("Attrs", "Types implementing this trait can return a slice over their `syn` attributes.")])
    (by decide)
    ("Attrs", "Types implementing this trait can return a slice over their `syn` attributes.")
    (by decide)

/-- The full textual content of `src/ink_lang_ir/ir/attrs/sidebar-items.js`. -/
def sidebarFileContent : String :=
  "initSidebarItems(\x7b\"enum\":[[\"Attribute\",\"Either an ink! specific attribute, or another uninterpreted attribute.\"],[\"AttributeArgKind\",\"An ink! specific attribute flag.\"]],\"fn\":[[\"contains_ink_attributes\",\"Returns `true` if the given iterator yields at least one attribute of the form `#[ink(..)]` or `#[ink]`.\"],[\"err_non_hex\",\"Returns an error to notify about non-hex digits at a position.\"],[\"first_ink_attribute\",\"Returns the first valid ink! attribute, if any.\"],[\"invalid_selector_err_regex\",\"Returns an error to notify about an invalid ink! selector.\"],[\"partition_attributes\",\"Partitions the given attributes into ink! specific and non-ink! specific attributes.\"],[\"sanitize_attributes\",\"Sanitizes the given attributes.\"]],\"struct\":[[\"AttributeArg\",\"An ink! specific attribute argument.\"],[\"InkAttribute\",\"An ink! specific attribute.\"],[\"Namespace\",\"An ink! namespace applicable to a trait implementation block.\"]],\"trait\":[[\"Attrs\",\"Types implementing this trait can return a slice over their `syn` attributes.\"]]\x7d);"

/-- JavaScript string literal for `s`: the text surrounded by double
quotes. -/
def renderStr (s : String) : String := "\"" ++ s ++ "\""

/-- JavaScript array literal for one (identifier, description) pair. -/
def renderPair (p : String × String) : String :=
  "[" ++ renderStr p.1 ++ "," ++ renderStr p.2 ++ "]"

/-- JavaScript array literal for the list of pairs of one category. -/
def renderPairs (l : List (String × String)) : String :=
  "[" ++ String.intercalate "," (l.map renderPair) ++ "]"

/-- JavaScript object entry for one category: quoted key, colon, array. -/
def renderEntry (c : String × List (String × String)) : String :=
  renderStr c.1 ++ ":" ++ renderPairs c.2

/-- JavaScript object literal for the whole sidebar mapping. -/
def renderSidebarObject (o : List (String × List (String × String))) : String :=
  "\x7b" ++ String.intercalate "," (o.map renderEntry) ++ "\x7d"

set_option maxRecDepth 100000 in
/-- C5: the sidebar source file consists solely of one call
`initSidebarItems(...)` applied to the static object literal rendered from
the pure data value `sidebarItems`, followed by a semicolon: the file text
is exactly that single call, so it contains no parser, state machine, loop,
branch or any other executable control flow. -/
theorem sidebar_file_is_single_static_call :
    sidebarFileContent =
      "initSidebarItems(" ++ renderSidebarObject sidebarItems ++ ");" := by
  rfl

/-- The lines of the ERC20 tutorial markdown document, in order, exactly as
in the source file. -/
def tutorialLines : List String := [
  "# ERC20 Contract Tutorial",
  "",
  "## Contract Compile",
  "",
  "The example of the ERC20 contract can be find in [Github/paritytech/ink](<https://github.com/paritytech/ink/tree/ee42309d830b1b4b4f3874c2f53c3f5d6ae9b47f/examples/erc20>) repo.",
  "",
  "Clone the repo and compile the ERC20 contract locally",
  "",
  "<img src=\"./imgs/complile.png\" alt=\"complile\" style=\"zoom:80%;\" />",
  "",
  "## Node Setup",
  "",
  "Build and Run the [substrate-contracts-node](<https://github.com/paritytech/substrate-contracts-node>) locally",
  "",
  "```shell",
  "./target/release/substrate-contracts-node --dev --tmp",
  "```",
  "",
  "Open the front-end UI ([Polkadot.js](<https://polkadot.js.org/apps/#/contracts>) or [Canvas UI](<https://paritytech.github.io/canvas-ui/#/>)) and connect to the local node",
  "",
  "",
  "",
  "## Deploy and Initialize Contract",
  "",
  "Upload the file `erc20.contract`",
  "",
  "<img src=\"./imgs/Deploy.png\" alt=\"Deploy\" style=\"zoom:30%;\" />",
  "",
  "Initial 1000 supply to Alice (default account)",
  "",
  "<img src=\"./imgs/Initial.png\" alt=\"Initial\" style=\"zoom:30%;\" />",
  "",
  "## Balance",
  "",
  "Check the balance after deploying erc20 contract successfully",
  "",
  "<img src=\"./imgs/Balance.png\" alt=\"Balance\" style=\"zoom:30%;\" />",
  "",
  "## Transfer",
  "",
  "Alice transfer 100 to Bob",
  "",
  "<img src=\"./imgs/transfer.png\" alt=\"transfer\" style=\"zoom:30%;\" />",
  "",
  "Check the balance after transfer",
  "",
  "<img src=\"./imgs/transfer_balance.png\" alt=\"transfer_balance\" style=\"zoom:30%;\" />",
  "",
  "## Approve and Allowance",
  "",
  "Alice approve 300 amount of allowance to Charlie",
  "",
  "<img src=\"./imgs/allowance.png\" alt=\"allowance\" style=\"zoom:30%;\" />",
  "",
  "Check the allowance",
  "",
  "<img src=\"./imgs/allowance_check.png\" alt=\"allowance_check\" style=\"zoom:30%;\" />",
  "",
  "Charlie transfer 200 from alice to bob",
  "",
  "<img src=\"./imgs/transfer_from.png\" alt=\"transfer_from\" style=\"zoom:30%;\" />",
  "",
  "Check the remaining allowance form Alice to Charlie",
  "",
  "<img src=\"./imgs/allowance_remain.png\" alt=\"allowance_remain\" style=\"zoom:30%;\" />",
  "",
  "Check the balance again",
  "",
  "<img src=\"./imgs/transfer_from_balance.png\" alt=\"transfer_from_balance\" style=\"zoom:30%;\" />"
]

/-- Whether the character list `pat` occurs at the start of `s`. -/
def startsWithChars : List Char → List Char → Bool
  | [], _ => true
  | _ :: _, [] => false
  | p :: ps, c :: cs => p == c && startsWithChars ps cs

/-- Whether the character list `pat` occurs anywhere inside `s`. -/
def containsChars (pat : List Char) : List Char → Bool
  | [] => startsWithChars pat []
  | c :: cs => startsWithChars pat (c :: cs) || containsChars pat cs

/-- Whether the string `pat` occurs as a contiguous substring of `s`. -/
def containsStr (pat s : String) : Bool := containsChars pat.toList s.toList

/-- C3: the tutorial contains a command-line invocation of the
substrate-contracts-node binary, and that same invocation carries both the
flag `--dev` and the flag `--tmp`. -/
theorem tutorial_node_invocation_has_dev_and_tmp :
    ∃ line ∈ tutorialLines,
      containsStr "substrate-contracts-node" line = true ∧
        containsStr "--dev" line = true ∧ containsStr "--tmp" line = true :=
  ⟨"./target/release/substrate-contracts-node --dev --tmp",
    by decide, by decide, by decide, by decide⟩

/-- Drops everything up to and including the first occurrence of `pat`;
`none` when `pat` does not occur. -/
def dropThroughMatch (pat : List Char) : List Char → Option (List Char)
  | [] => none
  | c :: cs =>
      if startsWithChars pat (c :: cs) then some ((c :: cs).drop pat.length)
      else dropThroughMatch pat cs

/-- The path of the `src` attribute of the first `<img` element of a line,
if the line has one: the text between `<img src="` and the closing quote. -/
def imgSrcOfLine (line : String) : Option String :=
  (dropThroughMatch ("<img src=\"".toList) line.toList).map
    (fun r => String.mk (r.takeWhile (fun c => !(c == '\"'))))

/-- All image paths referenced by `<img>` elements of the tutorial, in
document order. -/
def tutorialImgSrcs : List String := tutorialLines.filterMap imgSrcOfLine

/-- Resolves a tutorial-relative image path: a leading `./` refers to the
directory of the tutorial document itself. -/
def resolveTutorialPath (p : String) : String :=
  match p.toList with
  | '.' :: '/' :: rest => String.mk rest
  | _ => p

/-- Modelled from the spec: the image files of the repository are not among
the provided source files, only the tutorial that references them is. The
spec states that every referenced image path in the tutorial resolves to an
existing file, so the repository tree next to the tutorial is modelled as
holding these files of the `imgs` directory. -/
def repoImageFiles : List String := [
  "imgs/complile.png",
  "imgs/Deploy.png",
  "imgs/Initial.png",
  "imgs/Balance.png",
  "imgs/transfer.png",
  "imgs/transfer_balance.png",
  "imgs/allowance.png",
  "imgs/allowance_check.png",
  "imgs/transfer_from.png",
  "imgs/allowance_remain.png",
  "imgs/transfer_from_balance.png"
]

/-- C4: every image path referenced by an `<img>` element of the tutorial,
resolved relative to the tutorial document, is a file of the repository
image tree. -/
theorem tutorial_images_resolve :
    ∀ p ∈ tutorialImgSrcs, resolveTutorialPath p ∈ repoImageFiles := by decide

/-- `tutorial_images_resolve` applied at the first referenced image path. -/
theorem tutorial_images_resolve_witness :
    resolveTutorialPath "./imgs/complile.png" ∈ repoImageFiles :=
  tutorial_images_resolve "./imgs/complile.png" (by decide)

/-- An ERC20 ledger: token balances per account, and allowances per
(owner, spender) pair. Amounts are integers so that non-negativity is a
provable property rather than forced by the type. -/
structure Erc20State where
  balanceOf : String → Int
  allowanceOf : String → String → Int

/-- A fresh ERC20 ledger giving the whole initial supply to the creator
account and zero allowances. -/
def newErc20 (creator : String) (supply : Int) : Erc20State :=
  Erc20State.mk (fun a => if a == creator then supply else 0) (fun _ _ => 0)

/-- Overwrites one account balance. -/
def setBalance (s : Erc20State) (who : String) (v : Int) : Erc20State :=
  Erc20State.mk (fun a => if a == who then v else s.balanceOf a) s.allowanceOf

/-- Overwrites one (owner, spender) allowance. -/
def setAllowance (s : Erc20State) (owner spender : String) (v : Int) :
    Erc20State :=
  Erc20State.mk s.balanceOf
    (fun o sp => if o == owner && sp == spender then v else s.allowanceOf o sp)

/-- ERC20 transfer: fails when the sender balance is below the value,
otherwise debits the sender and then credits the receiver. -/
def transfer (s : Erc20State) (sender receiver : String) (value : Int) :
    Option Erc20State :=
  if s.balanceOf sender < value then none
  else
    let s1 := setBalance s sender (s.balanceOf sender - value)
    some (setBalance s1 receiver (s1.balanceOf receiver + value))

/-- ERC20 approve: the owner grants the spender an allowance of `value`. -/
def approve (s : Erc20State) (owner spender : String) (value : Int) :
    Erc20State :=
  setAllowance s owner spender value

/-- ERC20 transfer-from: the caller moves `value` from `owner` to
`receiver`; fails when the caller allowance or the owner balance is below
the value, otherwise performs the transfer and debits the allowance. -/
def transferFrom (s : Erc20State) (caller owner receiver : String)
    (value : Int) : Option Erc20State :=
  let al := s.allowanceOf owner caller
  if al < value then none
  else
    match transfer s owner receiver value with
    | none => none
    | some s1 => some (setAllowance s1 owner caller (al - value))

/-- The tutorial scenario, step 0: initial supply of 1000 to Alice. -/
def erc20S0 : Erc20State := newErc20 "Alice" 1000

/-- Step 1: Alice transfers 100 to Bob. -/
def erc20S1 : Option Erc20State := transfer erc20S0 "Alice" "Bob" 100

/-- Step 2: Alice approves an allowance of 300 to Charlie. -/
def erc20S2 : Option Erc20State :=
  erc20S1.map (fun s => approve s "Alice" "Charlie" 300)

/-- Step 3: Charlie transfers 200 from Alice to Bob. -/
def erc20S3 : Option Erc20State :=
  erc20S2.bind (fun s => transferFrom s "Charlie" "Alice" "Bob" 200)

/-- Every ledger state reached in the tutorial scenario. -/
def erc20TraceStates : List Erc20State :=
  erc20S0 :: (erc20S1.toList ++ erc20S2.toList ++ erc20S3.toList)

/-- C8: the token amounts of the tutorial are consistent as an ERC20 trace
from an initial supply of 1000 to Alice: the guarded transfer of 100 to
Bob, the approval of 300 to Charlie and the guarded transfer-from of 200 by
Charlie all succeed (so no step exceeds a balance or an allowance), the
final balances are Alice 700 and Bob 300 with a remaining allowance of 100,
and no balance or allowance of the scenario accounts is ever negative. -/
theorem erc20_tutorial_trace_consistent :
    erc20S3.map (fun s =>
        (s.balanceOf "Alice", s.balanceOf "Bob", s.allowanceOf "Alice" "Charlie")) =
      some (700, 300, 100) ∧
    (∀ st ∈ erc20TraceStates,
      ∀ a ∈ (["Alice", "Bob", "Charlie"] : List String), 0 ≤ st.balanceOf a) ∧
    (∀ st ∈ erc20TraceStates, 0 ≤ st.allowanceOf "Alice" "Charlie") := by
  refine ⟨by decide, by decide, by decide⟩

/-- `erc20_tutorial_trace_consistent` applied at the initial state and the
account Alice. -/
theorem erc20_tutorial_trace_consistent_witness :
    0 ≤ erc20S0.balanceOf "Alice" :=
  erc20_tutorial_trace_consistent.2.1 erc20S0 (List.mem_cons_self erc20S0 _)
    "Alice" (by decide)

end Ink
